import Mathlib

/-!
Verification development for the user-role routes of hyperswitch
(`crates/router/src/routes/user_role.rs`) and the authorization /
invitation-flow core behind them.

The route file is embedded directly: each route handler becomes a `Route`
record carrying the flow name, the authentication requirement passed to
`api::server_wrap`, and the lock action.  The core functions
(`user_role_core`, `role_core`) and the authentication services are not part
of the given sources; they are modelled from the specification, with each
such definition marked `Modelled from the spec:` in its doc comment.
-/

namespace UserRoleSpec

/-- Permissions used by the route file (`Permission::UsersRead`,
`Permission::UsersWrite` are the only variants it references). -/
inductive Permission : Type
  | UsersRead
  | UsersWrite
deriving DecidableEq, Repr

/-- Token purposes.  `AcceptInvite` is the variant used by the route file
(`TokenPurpose::AcceptInvite`); `MerchantSelect` is the single-purpose scope
the spec names for the intermediate merchant-selection token
(`common_enums::TokenPurpose` itself is outside the given sources, so the
extra variant is modelled from the spec). -/
inductive TokenPurpose : Type
  | AcceptInvite
  | MerchantSelect
deriving DecidableEq, Repr

/-- The authentication requirement passed to `api::server_wrap`, exactly the
three shapes appearing in the route file: `auth::JWTAuth(p)`,
`auth::SinglePurposeJWTAuth(t)`, `auth::DashboardNoPermissionAuth`. -/
inductive AuthType : Type
  | JWTAuth (p : Permission)
  | SinglePurposeJWTAuth (t : TokenPurpose)
  | DashboardNoPermissionAuth
deriving DecidableEq, Repr

/-- Lock actions of the generic request-locking facility.  The route file
only ever uses `api_locking::LockAction::NotApplicable`; the `Hold` variant
(acquiring a lock) is modelled from the spec as the exercised branch of the
facility that this core never takes. -/
inductive LockAction : Type
  | NotApplicable
  | Hold
deriving DecidableEq, Repr

/-- The `Flow` values named in the route file, one per route handler. -/
inductive Flow : Type
  | GetAuthorizationInfo
  | GetRoleFromToken
  | CreateRole
  | ListRoles
  | GetRole
  | UpdateRole
  | UpdateUserRole
  | AcceptInvitation
  | MerchantSelect
  | DeleteUserRole
  | GetRolesInfo
  | ListUsersInLineage
deriving DecidableEq, Repr

/-- One route handler of the file: its flow, the authentication argument it
passes to `api::server_wrap`, and the lock action it passes. -/
structure Route : Type where
  flow : Flow
  auth : AuthType
  lock : LockAction
deriving DecidableEq, Repr

/-- `get_authorization_info` (lines 19-36). -/
def get_authorization_info_route : Route :=
  { flow := .GetAuthorizationInfo
    auth := .JWTAuth .UsersRead
    lock := .NotApplicable }

/-- `get_role_from_token` (lines 38-53). -/
def get_role_from_token_route : Route :=
  { flow := .GetRoleFromToken
    auth := .DashboardNoPermissionAuth
    lock := .NotApplicable }

/-- `create_role` (lines 55-71). -/
def create_role_route : Route :=
  { flow := .CreateRole
    auth := .JWTAuth .UsersWrite
    lock := .NotApplicable }

/-- `list_all_roles` (lines 73-87). -/
def list_all_roles_route : Route :=
  { flow := .ListRoles
    auth := .JWTAuth .UsersRead
    lock := .NotApplicable }

/-- `get_role` (lines 89-110). -/
def get_role_route : Route :=
  { flow := .GetRole
    auth := .JWTAuth .UsersRead
    lock := .NotApplicable }

/-- `update_role` (lines 112-131). -/
def update_role_route : Route :=
  { flow := .UpdateRole
    auth := .JWTAuth .UsersWrite
    lock := .NotApplicable }

/-- `update_user_role` (lines 133-150). -/
def update_user_role_route : Route :=
  { flow := .UpdateUserRole
    auth := .JWTAuth .UsersWrite
    lock := .NotApplicable }

/-- `accept_invitation` (lines 152-169).  Its auth argument is
`auth::DashboardNoPermissionAuth`. -/
def accept_invitation_route : Route :=
  { flow := .AcceptInvitation
    auth := .DashboardNoPermissionAuth
    lock := .NotApplicable }

/-- `merchant_select` (lines 171-190).  Its auth argument is
`auth::SinglePurposeJWTAuth(TokenPurpose::AcceptInvite)`. -/
def merchant_select_route : Route :=
  { flow := .MerchantSelect
    auth := .SinglePurposeJWTAuth .AcceptInvite
    lock := .NotApplicable }

/-- `delete_user_role` (lines 192-208). -/
def delete_user_role_route : Route :=
  { flow := .DeleteUserRole
    auth := .JWTAuth .UsersWrite
    lock := .NotApplicable }

/-- `get_role_information` (lines 210-228). -/
def get_role_information_route : Route :=
  { flow := .GetRolesInfo
    auth := .JWTAuth .UsersRead
    lock := .NotApplicable }

/-- `list_users_in_lineage` (lines 230-245). -/
def list_users_in_lineage_route : Route :=
  { flow := .ListUsersInLineage
    auth := .DashboardNoPermissionAuth
    lock := .NotApplicable }

/-- All route handlers of `user_role.rs`, in file order. -/
def userRoleRoutes : List Route :=
  [ get_authorization_info_route
  , get_role_from_token_route
  , create_role_route
  , list_all_roles_route
  , get_role_route
  , update_role_route
  , update_user_role_route
  , accept_invitation_route
  , merchant_select_route
  , delete_user_role_route
  , get_role_information_route
  , list_users_in_lineage_route ]

/-- The authenticated principal handed to the core.  Modelled from the spec:
`Principal { user_id, role_id, lineage, token_purpose? }` is received already
authenticated; the effective permission list stands in for the permission set
the Authorization Resolver computes from its role. -/
structure Principal : Type where
  user_id : Nat
  permissions : List Permission
  token_purpose : Option TokenPurpose
deriving DecidableEq, Repr

/-- Error taxonomy of the core, as enumerated by the spec (section 7). -/
inductive CoreErr : Type
  | InvalidScope
  | UnknownPermissionGroup
  | InsufficientPrivilege
  | ImmutableField
  | NotFound
  | RoleNotFound
  | InvalidTokenPurpose
  | InvalidSelection
  | AlreadyExists
  | AlreadyProcessed
deriving DecidableEq, Repr

/-- A failure surfaced by the dispatch wrapper: either produced by the
authentication gate (before the handler runs) or by the handler itself. -/
inductive ApiErr : Type
  | auth (e : CoreErr)
  | core (e : CoreErr)
deriving DecidableEq, Repr

/-- Modelled from the spec: the single authentication gate evaluated before
any handler logic (the `authentication` service is outside the given
sources).  `JWTAuth(p)` requires permission `p`; `SinglePurposeJWTAuth(t)`
requires the declared token purpose to be exactly `t`, failing
`InvalidTokenPurpose` otherwise; `DashboardNoPermissionAuth` performs no
permission and no purpose check on the already-authenticated principal. -/
def authGate : AuthType → Principal → Except CoreErr Unit
  | .JWTAuth p, u =>
      if p ∈ u.permissions then .ok () else .error .InsufficientPrivilege
  | .SinglePurposeJWTAuth t, u =>
      if u.token_purpose = some t then .ok () else .error .InvalidTokenPurpose
  | .DashboardNoPermissionAuth, _ => .ok ()

/-- Modelled from the spec: `api::server_wrap` (outside the given sources)
evaluates the authentication gate first and invokes the handler only when
the gate passes; gate failures are surfaced without running any handler
logic. -/
def server_wrap {σ ρ α : Type} (a : AuthType) (u : Principal)
    (handler : σ → Principal → ρ → Except CoreErr α) (st : σ) (req : ρ) :
    Except ApiErr α :=
  match authGate a u with
  | .error e => .error (.auth e)
  | .ok _ =>
      match handler st u req with
      | .error e => .error (.core e)
      | .ok v => .ok v

instance {ε α : Type} [DecidableEq ε] [DecidableEq α] :
    DecidableEq (Except ε α) := fun x y =>
  match x, y with
  | .ok a, .ok b =>
      if h : a = b then .isTrue (by rw [h])
      else .isFalse (fun hc => h (Except.ok.inj hc))
  | .error a, .error b =>
      if h : a = b then .isTrue (by rw [h])
      else .isFalse (fun hc => h (Except.error.inj hc))
  | .ok _, .error _ => .isFalse (fun hc => Except.noConfusion hc)
  | .error _, .ok _ => .isFalse (fun hc => Except.noConfusion hc)

/-- Status of a `UserRole` binding: the spec's `{invited, active}`. -/
inductive UserStatus : Type
  | Invited
  | Active
deriving DecidableEq, Repr

/-- A `UserRole` binding of a user to a role within a merchant, as used by
the invitation flow.  Modelled from the spec (the storage collaborator is
outside the given sources). -/
structure UserRoleBinding : Type where
  user_id : Nat
  merchant_id : Nat
  role_id : Nat
  status : UserStatus
deriving DecidableEq, Repr

/-- The distinct merchants for which user `uid` holds an `invited`-status
binding: the invitee's candidate merchant set. -/
def invitedMerchants (uid : Nat) (bs : List UserRoleBinding) : List Nat :=
  ((bs.filter fun b => b.user_id = uid ∧ b.status = .Invited).map
    (fun b => b.merchant_id)).dedup

/-- Transition user `uid`'s invited binding for merchant `mid` to `active`,
leaving every other binding unchanged. -/
def activate (uid mid : Nat) (bs : List UserRoleBinding) :
    List UserRoleBinding :=
  bs.map fun b =>
    if b.user_id = uid ∧ b.merchant_id = mid ∧ b.status = .Invited then
      { b with status := .Active }
    else b

/-- The fully-scoped session descriptor handed to the token issuer: lineage
plus `purpose = none` for a full session.  Modelled from the spec. -/
structure SessionDescriptor : Type where
  user_id : Nat
  merchant_id : Nat
  purpose : Option TokenPurpose
deriving DecidableEq, Repr

/-- The intermediate token descriptor issued when merchant selection is
pending: a single-purpose credential scoped to merchant selection, carrying
the candidate merchants.  Modelled from the spec. -/
structure IntermediateToken : Type where
  purpose : TokenPurpose
  candidates : List Nat
deriving DecidableEq, Repr

/-- Result of `accept_invitation`: either a fully-scoped session (single
merchant) or a pending-merchant-select response with candidates and a new
single-purpose token.  Modelled from the spec. -/
inductive AcceptResp : Type
  | ActiveSession (sd : SessionDescriptor)
  | PendingMerchantSelect (candidates : List Nat) (token : IntermediateToken)
deriving DecidableEq, Repr

namespace user_role_core

/-- Modelled from the spec: `user_role_core::accept_invitation` (outside the
given sources).  Looks up all `invited`-status bindings of the user; if they
span exactly one merchant, transitions it to `active` and returns a
fully-scoped session descriptor; if they span several merchants, returns
`PENDING_MERCHANT_SELECT` with the candidates and a new single-purpose token
scoped to merchant selection; with no invited binding, fails `NotFound`. -/
def accept_invitation (uid : Nat) (bs : List UserRoleBinding) :
    Except CoreErr (List UserRoleBinding × AcceptResp) :=
  match invitedMerchants uid bs with
  | [] => .error .NotFound
  | [m] =>
      .ok (activate uid m bs,
           .ActiveSession { user_id := uid, merchant_id := m, purpose := none })
  | ms =>
      .ok (bs, .PendingMerchantSelect ms
                 { purpose := .MerchantSelect, candidates := ms })

/-- The storage state seen by the merchant-selection flow: the user-role
bindings together with the validity of the intermediate merchant-selection
token (consumed on first successful use).  Modelled from the spec. -/
structure SelectState : Type where
  bindings : List UserRoleBinding
  tokenValid : Bool
deriving DecidableEq, Repr

/-- Modelled from the spec: `user_role_core::merchant_select_token_only_flow`
(outside the given sources).  Fails `AlreadyProcessed` once the intermediate
token has been consumed; fails `InvalidSelection` if the requested merchant
is not among the invitee's candidate set; otherwise transitions the matching
binding to `active`, invalidates the token (single use) and returns the final
session descriptor. -/
def merchant_select_token_only_flow (uid mid : Nat) (st : SelectState) :
    Except CoreErr (SelectState × SessionDescriptor) :=
  if st.tokenValid = false then .error .AlreadyProcessed
  else if mid ∈ invitedMerchants uid st.bindings then
    .ok ({ bindings := activate uid mid st.bindings, tokenValid := false },
         { user_id := uid, merchant_id := mid, purpose := none })
  else .error .InvalidSelection

end user_role_core

/-- Scope levels of a role: the spec's `{organization, merchant, profile}`. -/
inductive ScopeLevel : Type
  | Organization
  | Merchant
  | Profile
deriving DecidableEq, Repr

/-- A Role entity of the Role Store.  Modelled from the spec (the store is
outside the given sources); group tags are the catalog's tag names. -/
structure Role : Type where
  role_id : Nat
  name : String
  group_tags : List String
  scope_level : ScopeLevel
  updated_at : Nat
deriving DecidableEq, Repr

/-- The patch accepted by `update_role`: optional new name and group tags,
plus the (rejected) attempt to set a scope level.  Modelled from the spec. -/
structure UpdateRoleRequest : Type where
  name : Option String
  group_tags : Option (List String)
  scope_level : Option ScopeLevel
deriving DecidableEq, Repr

namespace role_core

/-- Modelled from the spec: `role_core::update_role` (outside the given
sources).  Scope level is immutable: any attempt to set it is rejected with
`ImmutableField`, leaving the role as it was; otherwise only name and group
tags are patched and `updated_at` is refreshed. -/
def update_role (r : Role) (req : UpdateRoleRequest) (now : Nat) :
    Except CoreErr Role :=
  match req.scope_level with
  | some _ => .error .ImmutableField
  | none =>
      .ok { r with
              name := req.name.getD r.name
              group_tags := (req.group_tags).getD r.group_tags
              updated_at := now }

end role_core

/-- Apply a sequence of `update_role` requests to a role; a rejected request
leaves the role unchanged, as the spec requires of terminal failures. -/
def applyRoleUpdates (r : Role) (reqs : List (UpdateRoleRequest × Nat)) :
    Role :=
  reqs.foldl
    (fun acc p =>
      match role_core.update_role acc p.1 p.2 with
      | .ok r2 => r2
      | .error _ => acc)
    r

/-- An organizational lineage: organization, then optional merchant and
profile identifiers.  Modelled from the spec. -/
structure Lineage : Type where
  org_id : Nat
  merchant_id : Option Nat
  profile_id : Option Nat
deriving DecidableEq, Repr

/-- Modelled from the spec: the scope-dominance check of the Authorization
Resolver — an actor whose lineage leaves a level unconstrained dominates any
value at that level, while a constrained level must match the target. -/
def canManage (actorLineage target : Lineage) : Prop :=
  actorLineage.org_id = target.org_id ∧
  (∀ m, actorLineage.merchant_id = some m → target.merchant_id = some m) ∧
  (∀ p, actorLineage.profile_id = some p → target.profile_id = some p)

instance (a t : Lineage) : Decidable (canManage a t) := by
  unfold canManage
  infer_instance

/-- A stored `UserRole` row keyed by user and lineage, as seen by
`delete_user_role`.  Modelled from the spec. -/
structure UserRoleEntry : Type where
  user_id : Nat
  lineage : Lineage
  status : UserStatus
deriving DecidableEq, Repr

/-- The actor of a lineage-scoped operation: its identity and own lineage. -/
structure Actor : Type where
  user_id : Nat
  lineage : Lineage
deriving DecidableEq, Repr

/-- Whether a stored row is the binding of user `uid` in lineage `lin`. -/
def matchesBinding (uid : Nat) (lin : Lineage) (e : UserRoleEntry) : Bool :=
  decide (e.user_id = uid ∧ e.lineage = lin)

/-- The matching test, read back as a proposition. -/
theorem matchesBinding_eq_true (uid : Nat) (lin : Lineage)
    (e : UserRoleEntry) :
    matchesBinding uid lin e = true ↔
      (e.user_id = uid ∧ e.lineage = lin) := by
  simp [matchesBinding]

namespace user_role_core

/-- Modelled from the spec: `user_role_core::delete_user_role` (outside the
given sources).  Fails `InsufficientPrivilege` if the actor cannot manage the
target lineage; fails `NotFound` if no binding for that user and lineage
exists; otherwise removes the binding.  Deletion is not idempotent: a repeat
of an already-deleted binding takes the `NotFound` branch. -/
def delete_user_role (actor : Actor) (db : List UserRoleEntry)
    (uid : Nat) (lin : Lineage) : Except CoreErr (List UserRoleEntry) :=
  if canManage actor.lineage lin then
    if db.any (matchesBinding uid lin) then
      .ok (db.filter fun e => ! matchesBinding uid lin e)
    else .error .NotFound
  else .error .InsufficientPrivilege

/-- Modelled from the spec: the static authorization info listed per group
tag by `user_role_core::get_authorization_info_with_group_tag` (outside the
given sources).  A constant: it takes no argument in the route file, so its
value cannot depend on state, caller or payload. -/
def get_authorization_info_with_group_tag : List (String × String) :=
  [("users-read", "View users and roles"),
   ("users-write", "Manage users and roles")]

end user_role_core

/-- The application state threaded to handlers (`web::Data<AppState>`);
its contents are external to this core, so it is embedded as an abstract
identifier. -/
structure AppState : Type where
  state_id : Nat
deriving DecidableEq, Repr

/-- The handler closure of the `get_role_information` route (lines 221-223):
`|_, _: (), _, _| async move { get_authorization_info_with_group_tag().await }`
— it discards the state, the authenticated user and the payload. -/
def get_role_information_handler (_st : AppState) (_u : Principal) (_p : Unit) :
    Except CoreErr (List (String × String)) :=
  .ok user_role_core.get_authorization_info_with_group_tag

/-- The handler closure of the `accept_invitation` route (line 164):
`|state, user, req_body, _| user_role_core::accept_invitation(state, user, req_body)`.
The state is the stored bindings; the payload carries nothing this model
needs. -/
def accept_invitation_handler (bs : List UserRoleBinding) (u : Principal)
    (_req : Unit) : Except CoreErr (List UserRoleBinding × AcceptResp) :=
  user_role_core.accept_invitation u.user_id bs

/-- A binding whose merchant is not the selected one is left untouched by
`activate`. -/
theorem mem_activate_of_merchant_ne (uid mid : Nat) (b : UserRoleBinding)
    (bs : List UserRoleBinding) (hb : b ∈ bs) (hne : b.merchant_id ≠ mid) :
    b ∈ activate uid mid bs := by
  have hcond : ¬ (b.user_id = uid ∧ b.merchant_id = mid ∧
      b.status = UserStatus.Invited) := fun hc => hne hc.2.1
  exact List.mem_map.mpr ⟨b, hb, if_neg hcond⟩

/-- The selected invited binding is transitioned to active by `activate`. -/
theorem mem_activate_active (uid mid : Nat) (b : UserRoleBinding)
    (bs : List UserRoleBinding) (hb : b ∈ bs) (h1 : b.user_id = uid)
    (h2 : b.merchant_id = mid) (h3 : b.status = UserStatus.Invited) :
    { b with status := UserStatus.Active } ∈ activate uid mid bs :=
  List.mem_map.mpr ⟨b, hb, if_pos ⟨h1, h2, h3⟩⟩

/-- C1 counterexample: the claim says a call to `accept_invitation` whose
declared token purpose is not "accept invite" fails `InvalidTokenPurpose`
before any business logic runs.  In the route file the auth argument of
`accept_invitation` is `DashboardNoPermissionAuth`, so a principal whose
purpose is merchant-select passes the gate and the handler runs to success:
the operation does not fail `InvalidTokenPurpose`. -/
theorem accept_invitation_purpose_gate_cex :
    (some TokenPurpose.MerchantSelect ≠ some TokenPurpose.AcceptInvite) ∧
    accept_invitation_route.auth = AuthType.DashboardNoPermissionAuth ∧
    server_wrap accept_invitation_route.auth
      { user_id := 7, permissions := [],
        token_purpose := some TokenPurpose.MerchantSelect }
      accept_invitation_handler
      [{ user_id := 7, merchant_id := 5, role_id := 1,
         status := UserStatus.Invited }] ()
      = .ok ([{ user_id := 7, merchant_id := 5, role_id := 1,
                status := UserStatus.Active }],
             .ActiveSession { user_id := 7, merchant_id := 5,
                              purpose := none }) := by
  refine ⟨by decide, rfl, by decide⟩

/-- C1 (amended): `accept_invitation` is gated by
`DashboardNoPermissionAuth`, which passes every authenticated principal
regardless of its declared token purpose; the operation never fails with the
gate error `InvalidTokenPurpose`.  (The purpose gate requiring exactly
"accept invite" is wired to `merchant_select` instead.) -/
theorem accept_invitation_no_purpose_gate (u : Principal) :
    accept_invitation_route.auth = AuthType.DashboardNoPermissionAuth ∧
    merchant_select_route.auth =
      AuthType.SinglePurposeJWTAuth TokenPurpose.AcceptInvite ∧
    authGate accept_invitation_route.auth u = .ok () ∧
    ∀ (bs : List UserRoleBinding) (req : Unit),
      server_wrap accept_invitation_route.auth u accept_invitation_handler
        bs req ≠ .error (.auth .InvalidTokenPurpose) := by
  refine ⟨rfl, rfl, rfl, ?_⟩
  intro bs req
  simp only [server_wrap, accept_invitation_route, authGate]
  cases accept_invitation_handler bs u req <;> simp

/-- C6 counterexample: the claim speaks of eleven route handlers, but the
route file defines twelve. -/
theorem lock_not_applicable_cex : ¬ (userRoleRoutes.length = 11) := by
  decide

/-- C6 (amended): the route file defines twelve handlers, and every one of
them passes `api_locking::LockAction::NotApplicable` to the dispatch
wrapper, so no operation ever acquires a request lock. -/
theorem lock_not_applicable_all_routes :
    userRoleRoutes.length = 12 ∧
    ∀ r ∈ userRoleRoutes, r.lock = LockAction.NotApplicable := by
  refine ⟨rfl, ?_⟩
  intro r hr
  fin_cases hr <;> rfl

/-- C6 witness: the amended theorem applied to the `merchant_select`
route. -/
theorem lock_not_applicable_all_routes_witness :
    userRoleRoutes.length = 12 ∧
    merchant_select_route.lock = LockAction.NotApplicable :=
  ⟨lock_not_applicable_all_routes.1,
   lock_not_applicable_all_routes.2 merchant_select_route (by decide)⟩

/-- C7: every route's authentication requirement is one of exactly three
kinds — a required permission (`JWTAuth`), a required single token purpose
(`SinglePurposeJWTAuth`), or no permission check
(`DashboardNoPermissionAuth`) — and the requirement is evaluated by the
single gate before any handler logic: when the gate fails, the wrapper
returns the gate's error for every handler, state and payload alike. -/
theorem auth_requirement_three_kinds :
    (∀ r ∈ userRoleRoutes,
      (∃ p, r.auth = AuthType.JWTAuth p) ∨
      (∃ t, r.auth = AuthType.SinglePurposeJWTAuth t) ∨
      r.auth = AuthType.DashboardNoPermissionAuth) ∧
    (∀ {σ ρ α : Type} (a : AuthType) (u : Principal) (e : CoreErr)
       (handler : σ → Principal → ρ → Except CoreErr α) (st : σ) (req : ρ),
       authGate a u = .error e →
       server_wrap a u handler st req = .error (.auth e)) := by
  constructor
  · intro r hr
    fin_cases hr
    · exact Or.inl ⟨_, rfl⟩
    · exact Or.inr (Or.inr rfl)
    · exact Or.inl ⟨_, rfl⟩
    · exact Or.inl ⟨_, rfl⟩
    · exact Or.inl ⟨_, rfl⟩
    · exact Or.inl ⟨_, rfl⟩
    · exact Or.inl ⟨_, rfl⟩
    · exact Or.inr (Or.inr rfl)
    · exact Or.inr (Or.inl ⟨_, rfl⟩)
    · exact Or.inl ⟨_, rfl⟩
    · exact Or.inl ⟨_, rfl⟩
    · exact Or.inr (Or.inr rfl)
  · intro σ ρ α a u e handler st req h
    simp [server_wrap, h]

/-- C7 witness: the gate-before-handler half applied to the merchant-select
auth with a purposeless principal and a concrete handler. -/
theorem auth_requirement_three_kinds_witness :
    server_wrap (AuthType.SinglePurposeJWTAuth TokenPurpose.AcceptInvite)
      { user_id := 1, permissions := [], token_purpose := none }
      (fun (_ : AppState) (_ : Principal) (_ : Unit) =>
        (Except.ok 0 : Except CoreErr Nat))
      { state_id := 0 } ()
      = .error (.auth .InvalidTokenPurpose) :=
  auth_requirement_three_kinds.2 _ _ _ _ _ _ rfl

/-- C10: `get_role_from_token` and `list_users_in_lineage` are gated only by
`DashboardNoPermissionAuth`, which every authenticated dashboard principal
passes — including one whose permission list is empty; and every route whose
auth is not a required permission is one of these two reads or one of the
two invitation-flow endpoints (`accept_invitation`, `merchant_select`). -/
theorem no_permission_reads (u : Principal) (r : Route)
    (hr : r ∈ userRoleRoutes) :
    get_role_from_token_route.auth = AuthType.DashboardNoPermissionAuth ∧
    list_users_in_lineage_route.auth = AuthType.DashboardNoPermissionAuth ∧
    authGate AuthType.DashboardNoPermissionAuth u = .ok () ∧
    ((∀ p, r.auth ≠ AuthType.JWTAuth p) →
      r = get_role_from_token_route ∨ r = list_users_in_lineage_route ∨
      r = accept_invitation_route ∨ r = merchant_select_route) := by
  refine ⟨rfl, rfl, rfl, ?_⟩
  intro hnp
  fin_cases hr
  · exact absurd rfl (hnp _)
  · exact Or.inl rfl
  · exact absurd rfl (hnp _)
  · exact absurd rfl (hnp _)
  · exact absurd rfl (hnp _)
  · exact absurd rfl (hnp _)
  · exact absurd rfl (hnp _)
  · exact Or.inr (Or.inr (Or.inl rfl))
  · exact Or.inr (Or.inr (Or.inr rfl))
  · exact absurd rfl (hnp _)
  · exact absurd rfl (hnp _)
  · exact Or.inr (Or.inl rfl)

/-- C10 witness: a principal holding no permission at all passes the
`DashboardNoPermissionAuth` gate of `get_role_from_token`. -/
theorem no_permission_reads_witness :
    authGate AuthType.DashboardNoPermissionAuth
      { user_id := 9, permissions := [], token_purpose := none } = .ok () :=
  (no_permission_reads
    { user_id := 9, permissions := [], token_purpose := none }
    get_role_from_token_route (by decide)).2.2.1

/-- C2: the merchant-selection token is single use.  After one successful
`merchant_select_token_only_flow` call, the token is consumed, the selected
binding is active and the final session descriptor is returned; every
subsequent select call against the resulting state fails with
`InvalidSelection` or `AlreadyProcessed`, and bindings for non-selected
merchants remain in `invited` status. -/
theorem merchant_select_single_use (uid mid : Nat)
    (st st2 : user_role_core.SelectState) (sd : SessionDescriptor)
    (h : user_role_core.merchant_select_token_only_flow uid mid st =
      .ok (st2, sd)) :
    st2.tokenValid = false ∧
    sd = { user_id := uid, merchant_id := mid, purpose := none } ∧
    (∀ mid2,
      user_role_core.merchant_select_token_only_flow uid mid2 st2 =
        .error .InvalidSelection ∨
      user_role_core.merchant_select_token_only_flow uid mid2 st2 =
        .error .AlreadyProcessed) ∧
    (∀ b ∈ st.bindings, b.user_id = uid → b.merchant_id = mid →
      b.status = UserStatus.Invited →
      { b with status := UserStatus.Active } ∈ st2.bindings) ∧
    (∀ b ∈ st.bindings, b.merchant_id ≠ mid →
      b ∈ st2.bindings ∧ b.status = b.status) := by
  unfold user_role_core.merchant_select_token_only_flow at h
  split at h
  · exact absurd h (by simp)
  · split at h
    · have hpair := Except.ok.inj h
      have hst2 : st2 = { bindings := activate uid mid st.bindings,
                          tokenValid := false } :=
        (congrArg Prod.fst hpair).symm
      have hsd : sd = { user_id := uid, merchant_id := mid, purpose := none } :=
        (congrArg Prod.snd hpair).symm
      subst hst2
      refine ⟨rfl, hsd, ?_, ?_, ?_⟩
      · intro mid2
        right
        unfold user_role_core.merchant_select_token_only_flow
        rfl
      · intro b hb h1 h2 h3
        exact mem_activate_active uid mid b st.bindings hb h1 h2 h3
      · intro b hb hne
        exact ⟨mem_activate_of_merchant_ne uid mid b st.bindings hb hne, rfl⟩
    · exact absurd h (by simp)

/-- C2 witness: a concrete run with two invited merchants; after selecting
merchant 5 the second call fails and the binding for merchant 6 is still
invited. -/
theorem merchant_select_single_use_witness :
    (user_role_core.merchant_select_token_only_flow 7 5
        { bindings := [{ user_id := 7, merchant_id := 5, role_id := 1,
                         status := UserStatus.Active },
                       { user_id := 7, merchant_id := 6, role_id := 1,
                         status := UserStatus.Invited }],
          tokenValid := false } = .error .InvalidSelection ∨
     user_role_core.merchant_select_token_only_flow 7 5
        { bindings := [{ user_id := 7, merchant_id := 5, role_id := 1,
                         status := UserStatus.Active },
                       { user_id := 7, merchant_id := 6, role_id := 1,
                         status := UserStatus.Invited }],
          tokenValid := false } = .error .AlreadyProcessed) ∧
    ({ user_id := 7, merchant_id := 6, role_id := 1,
       status := UserStatus.Invited } : UserRoleBinding) ∈
      ({ bindings := [{ user_id := 7, merchant_id := 5, role_id := 1,
                        status := UserStatus.Active },
                      { user_id := 7, merchant_id := 6, role_id := 1,
                        status := UserStatus.Invited }],
         tokenValid := false } : user_role_core.SelectState).bindings := by
  have h : user_role_core.merchant_select_token_only_flow 7 5
      { bindings := [{ user_id := 7, merchant_id := 5, role_id := 1,
                       status := UserStatus.Invited },
                     { user_id := 7, merchant_id := 6, role_id := 1,
                       status := UserStatus.Invited }],
        tokenValid := true } =
      .ok ({ bindings := [{ user_id := 7, merchant_id := 5, role_id := 1,
                            status := UserStatus.Active },
                          { user_id := 7, merchant_id := 6, role_id := 1,
                            status := UserStatus.Invited }],
             tokenValid := false },
           { user_id := 7, merchant_id := 5, purpose := none }) := by decide
  refine ⟨(merchant_select_single_use 7 5 _ _ _ h).2.2.1 5, ?_⟩
  exact ((merchant_select_single_use 7 5 _ _ _ h).2.2.2.2
    { user_id := 7, merchant_id := 6, role_id := 1,
      status := UserStatus.Invited } (by decide) (by decide)).1

/-- C3: `accept_invitation` works from the user's invited-status bindings.
When they span exactly one merchant it transitions that binding to active
and returns a fully-scoped session descriptor (purpose-free, bound to that
merchant); when they span several merchants it returns
`PENDING_MERCHANT_SELECT` enumerating the candidates together with a new
single-purpose token scoped to merchant selection. -/
theorem accept_invitation_branches (uid : Nat)
    (bs : List UserRoleBinding) :
    (∀ m, invitedMerchants uid bs = [m] →
      user_role_core.accept_invitation uid bs =
        .ok (activate uid m bs,
             .ActiveSession { user_id := uid, merchant_id := m,
                              purpose := none }) ∧
      (∀ b ∈ bs, b.user_id = uid → b.merchant_id = m →
        b.status = UserStatus.Invited →
        { b with status := UserStatus.Active } ∈ activate uid m bs) ∧
      (∀ b ∈ bs, b.merchant_id ≠ m → b ∈ activate uid m bs)) ∧
    (2 ≤ (invitedMerchants uid bs).length →
      user_role_core.accept_invitation uid bs =
        .ok (bs, .PendingMerchantSelect (invitedMerchants uid bs)
               { purpose := TokenPurpose.MerchantSelect,
                 candidates := invitedMerchants uid bs })) := by
  constructor
  · intro m hm
    refine ⟨?_, ?_, ?_⟩
    · unfold user_role_core.accept_invitation
      rw [hm]
    · intro b hb h1 h2 h3
      exact mem_activate_active uid m b bs hb h1 h2 h3
    · intro b hb hne
      exact mem_activate_of_merchant_ne uid m b bs hb hne
  · intro hlen
    rcases hl : invitedMerchants uid bs with _ | ⟨a, _ | ⟨b, rest⟩⟩
    · rw [hl] at hlen; simp at hlen
    · rw [hl] at hlen; simp at hlen
    · unfold user_role_core.accept_invitation
      rw [hl]

/-- C3 witness: one invited merchant yields an active session; two invited
merchants yield a pending-merchant-select response with a merchant-select
token. -/
theorem accept_invitation_branches_witness :
    user_role_core.accept_invitation 7
      [{ user_id := 7, merchant_id := 5, role_id := 1,
         status := UserStatus.Invited }] =
      .ok (activate 7 5 [{ user_id := 7, merchant_id := 5, role_id := 1,
                           status := UserStatus.Invited }],
           .ActiveSession { user_id := 7, merchant_id := 5,
                            purpose := none }) ∧
    user_role_core.accept_invitation 7
      [{ user_id := 7, merchant_id := 5, role_id := 1,
         status := UserStatus.Invited },
       { user_id := 7, merchant_id := 6, role_id := 1,
         status := UserStatus.Invited }] =
      .ok ([{ user_id := 7, merchant_id := 5, role_id := 1,
              status := UserStatus.Invited },
            { user_id := 7, merchant_id := 6, role_id := 1,
              status := UserStatus.Invited }],
           .PendingMerchantSelect
             (invitedMerchants 7
               [{ user_id := 7, merchant_id := 5, role_id := 1,
                  status := UserStatus.Invited },
                { user_id := 7, merchant_id := 6, role_id := 1,
                  status := UserStatus.Invited }])
             { purpose := TokenPurpose.MerchantSelect,
               candidates := invitedMerchants 7
                 [{ user_id := 7, merchant_id := 5, role_id := 1,
                    status := UserStatus.Invited },
                  { user_id := 7, merchant_id := 6, role_id := 1,
                    status := UserStatus.Invited }] }) :=
  ⟨((accept_invitation_branches 7 _).1 5 (by decide)).1,
   (accept_invitation_branches 7 _).2 (by decide)⟩

/-- C4: `merchant_select` is gated by a required token purpose of exactly
"accept invite" — any other declared purpose makes the wrapper fail
`InvalidTokenPurpose` before the handler runs, for every handler, state and
payload alike — and the handler fails `InvalidSelection` when the requested
merchant is not among the invitee's candidate set. -/
theorem merchant_select_gate_and_selection :
    merchant_select_route.auth =
      AuthType.SinglePurposeJWTAuth TokenPurpose.AcceptInvite ∧
    (∀ {σ ρ α : Type} (u : Principal)
        (handler : σ → Principal → ρ → Except CoreErr α) (st : σ) (req : ρ),
        u.token_purpose ≠ some TokenPurpose.AcceptInvite →
        server_wrap merchant_select_route.auth u handler st req =
          .error (.auth .InvalidTokenPurpose)) ∧
    (∀ (uid mid : Nat) (st : user_role_core.SelectState),
        st.tokenValid = true →
        mid ∉ invitedMerchants uid st.bindings →
        user_role_core.merchant_select_token_only_flow uid mid st =
          .error .InvalidSelection) := by
  refine ⟨rfl, ?_, ?_⟩
  · intro σ ρ α u handler st req hp
    simp [server_wrap, merchant_select_route, authGate, hp]
  · intro uid mid st htok hmem
    unfold user_role_core.merchant_select_token_only_flow
    rw [htok]
    simp [hmem]

/-- C4 witness: a purposeless principal is rejected `InvalidTokenPurpose`
at the merchant-select gate, and selecting a merchant outside the candidate
set fails `InvalidSelection`. -/
theorem merchant_select_gate_and_selection_witness :
    server_wrap merchant_select_route.auth
      { user_id := 3, permissions := [], token_purpose := none }
      (fun (_ : AppState) (_ : Principal) (_ : Unit) =>
        (Except.ok 0 : Except CoreErr Nat)) { state_id := 0 } ()
      = .error (.auth .InvalidTokenPurpose) ∧
    user_role_core.merchant_select_token_only_flow 3 99
      { bindings := [{ user_id := 3, merchant_id := 5, role_id := 1,
                       status := UserStatus.Invited }],
        tokenValid := true } = .error .InvalidSelection :=
  ⟨merchant_select_gate_and_selection.2.1 _ _ _ _ (by decide),
   merchant_select_gate_and_selection.2.2 3 99 _ rfl (by decide)⟩

/-- A single `update_role` step — rejected or not — leaves the role's scope
level and identity unchanged. -/
theorem update_role_step_preserves (r : Role) (req : UpdateRoleRequest)
    (now : Nat) :
    (match role_core.update_role r req now with
     | .ok r2 => r2
     | .error _ => r).scope_level = r.scope_level ∧
    (match role_core.update_role r req now with
     | .ok r2 => r2
     | .error _ => r).role_id = r.role_id := by
  unfold role_core.update_role
  cases req.scope_level <;> exact ⟨rfl, rfl⟩

/-- C5: a role's scope level is immutable.  Across any sequence of
`update_role` calls the scope level (and the role's identity) is unchanged —
only name, group tags and `updated_at` may differ — and any request that
attempts to set the scope level is rejected with `ImmutableField`. -/
theorem update_role_scope_immutable (r : Role)
    (reqs : List (UpdateRoleRequest × Nat)) :
    (applyRoleUpdates r reqs).scope_level = r.scope_level ∧
    (applyRoleUpdates r reqs).role_id = r.role_id ∧
    (∀ (req : UpdateRoleRequest) (now : Nat) (s : ScopeLevel),
      req.scope_level = some s →
      role_core.update_role r req now = .error .ImmutableField) := by
  refine ⟨?_, ?_, ?_⟩
  · induction reqs generalizing r with
    | nil => rfl
    | cons p t ih =>
        exact (ih _).trans (update_role_step_preserves r p.1 p.2).1
  · induction reqs generalizing r with
    | nil => rfl
    | cons p t ih =>
        exact (ih _).trans (update_role_step_preserves r p.1 p.2).2
  · intro req now s hs
    unfold role_core.update_role
    rw [hs]

/-- C5 witness: a concrete role keeps its merchant scope level across a
rename plus a rejected scope change, and the scope-setting request fails
`ImmutableField`. -/
theorem update_role_scope_immutable_witness :
    (applyRoleUpdates
        { role_id := 1, name := "Analyst", group_tags := ["users-read"],
          scope_level := ScopeLevel.Merchant, updated_at := 0 }
        [({ name := some "Lead", group_tags := none, scope_level := none }, 3),
         ({ name := none, group_tags := none,
            scope_level := some ScopeLevel.Organization }, 4)]).scope_level =
      ({ role_id := 1, name := "Analyst", group_tags := ["users-read"],
         scope_level := ScopeLevel.Merchant,
         updated_at := 0 } : Role).scope_level ∧
    role_core.update_role
      { role_id := 1, name := "Analyst", group_tags := ["users-read"],
        scope_level := ScopeLevel.Merchant, updated_at := 0 }
      { name := none, group_tags := none,
        scope_level := some ScopeLevel.Organization } 4 =
      .error .ImmutableField :=
  ⟨(update_role_scope_immutable _ _).1,
   (update_role_scope_immutable
     { role_id := 1, name := "Analyst", group_tags := ["users-read"],
       scope_level := ScopeLevel.Merchant, updated_at := 0 } []).2.2
     _ 4 ScopeLevel.Organization rfl⟩

/-- C8: `delete_user_role` is not idempotent.  It fails
`InsufficientPrivilege` when the actor cannot manage the target lineage and
`NotFound` when no binding exists; a successful delete removes the binding,
and repeating the same delete on the resulting store fails `NotFound`. -/
theorem delete_user_role_not_idempotent (actor : Actor)
    (db : List UserRoleEntry) (uid : Nat) (lin : Lineage) :
    (¬ canManage actor.lineage lin →
      user_role_core.delete_user_role actor db uid lin =
        .error .InsufficientPrivilege) ∧
    (canManage actor.lineage lin →
      (∀ e ∈ db, ¬ (e.user_id = uid ∧ e.lineage = lin)) →
      user_role_core.delete_user_role actor db uid lin = .error .NotFound) ∧
    (∀ db2, canManage actor.lineage lin →
      user_role_core.delete_user_role actor db uid lin = .ok db2 →
      (∀ e ∈ db2, ¬ (e.user_id = uid ∧ e.lineage = lin)) ∧
      user_role_core.delete_user_role actor db2 uid lin =
        .error .NotFound) := by
  refine ⟨?_, ?_, ?_⟩
  · intro hno
    unfold user_role_core.delete_user_role
    rw [if_neg hno]
  · intro hcan hnone
    unfold user_role_core.delete_user_role
    rw [if_pos hcan, if_neg]
    intro hany
    obtain ⟨e, he, hm⟩ := List.any_eq_true.mp hany
    exact hnone e he ((matchesBinding_eq_true uid lin e).mp hm)
  · intro db2 hcan hok
    unfold user_role_core.delete_user_role at hok
    rw [if_pos hcan] at hok
    split at hok
    · have hdb2 : db2 =
          db.filter fun e => ! matchesBinding uid lin e :=
        (Except.ok.inj hok).symm
      subst hdb2
      have hclean : ∀ e ∈ db.filter
          (fun e => ! matchesBinding uid lin e),
          ¬ (e.user_id = uid ∧ e.lineage = lin) := by
        intro e he hc
        have hmem := List.mem_filter.mp he
        have hfalse : matchesBinding uid lin e = false := by
          simpa using hmem.2
        rw [(matchesBinding_eq_true uid lin e).mpr hc] at hfalse
        exact absurd hfalse (by simp)
      refine ⟨hclean, ?_⟩
      unfold user_role_core.delete_user_role
      rw [if_pos hcan, if_neg]
      intro hany
      obtain ⟨e, he, hm⟩ := List.any_eq_true.mp hany
      exact hclean e he ((matchesBinding_eq_true uid lin e).mp hm)
    · exact absurd hok (by simp)

/-- C8 witness: an org-scoped actor deletes the only binding of user 2 in a
merchant lineage under its organization; the second delete of the same,
already-deleted binding fails `NotFound`, and a foreign-org actor is
rejected `InsufficientPrivilege`. -/
theorem delete_user_role_not_idempotent_witness :
    user_role_core.delete_user_role
      { user_id := 1, lineage := { org_id := 10, merchant_id := none,
                                   profile_id := none } }
      [] 2 { org_id := 10, merchant_id := some 4, profile_id := none } =
      .error .NotFound ∧
    user_role_core.delete_user_role
      { user_id := 1, lineage := { org_id := 11, merchant_id := none,
                                   profile_id := none } }
      [{ user_id := 2, lineage := { org_id := 10, merchant_id := some 4,
                                    profile_id := none },
         status := UserStatus.Active }]
      2 { org_id := 10, merchant_id := some 4, profile_id := none } =
      .error .InsufficientPrivilege :=
  ⟨((delete_user_role_not_idempotent
      { user_id := 1, lineage := { org_id := 10, merchant_id := none,
                                   profile_id := none } }
      [{ user_id := 2, lineage := { org_id := 10, merchant_id := some 4,
                                    profile_id := none },
         status := UserStatus.Active }]
      2 { org_id := 10, merchant_id := some 4, profile_id := none }).2.2
      [] (by decide) (by decide)).2,
   (delete_user_role_not_idempotent
      { user_id := 1, lineage := { org_id := 11, merchant_id := none,
                                   profile_id := none } }
      _ 2 _).1 (by decide)⟩

/-- C9: the `get_role_information` handler discards the application state,
the authenticated user and the payload, so for any two callers passing the
`UsersRead` gate — and any two application states — the computation invoked
and the wrapped result are identical. -/
theorem get_role_information_caller_independent
    (st1 st2 : AppState) (u1 u2 : Principal) (p1 p2 : Unit)
    (h1 : authGate get_role_information_route.auth u1 = .ok ())
    (h2 : authGate get_role_information_route.auth u2 = .ok ()) :
    get_role_information_handler st1 u1 p1 =
      get_role_information_handler st2 u2 p2 ∧
    server_wrap get_role_information_route.auth u1
        get_role_information_handler st1 p1 =
      server_wrap get_role_information_route.auth u2
        get_role_information_handler st2 p2 := by
  refine ⟨rfl, ?_⟩
  simp [server_wrap, get_role_information_handler, h1, h2]

/-- C9 witness: two distinct states and two distinct `UsersRead`-holding
principals produce the same wrapped `get_role_information` result. -/
theorem get_role_information_caller_independent_witness :
    server_wrap get_role_information_route.auth
      { user_id := 1, permissions := [Permission.UsersRead],
        token_purpose := none }
      get_role_information_handler { state_id := 0 } () =
    server_wrap get_role_information_route.auth
      { user_id := 2, permissions := [Permission.UsersRead,
                                      Permission.UsersWrite],
        token_purpose := none }
      get_role_information_handler { state_id := 5 } () :=
  (get_role_information_caller_independent
    { state_id := 0 } { state_id := 5 }
    { user_id := 1, permissions := [Permission.UsersRead],
      token_purpose := none }
    { user_id := 2, permissions := [Permission.UsersRead,
                                    Permission.UsersWrite],
      token_purpose := none }
    () () (by decide) (by decide)).2

end UserRoleSpec
